import Mathlib

/-!
Shallow embedding of the pysui synchronous RPC client
(`src/pysui/sui/sui_clients/sync_client.py`) together with proofs about its
execution pipeline, its transaction-signing flows, its pagination loops and
its error normalization.

Python values flowing through the client (JSON bodies, typed results,
`PreExecutionResult` objects) are embedded into one dynamic `Value` type.
The network is embedded as an oracle from round-trip index to transport
outcome, plus a log of the requests posted so far, so that theorems can
count round trips and inspect the order of requests.  Python exceptions
that can escape the client are made explicit with `Except PyExc`.
-/

/-- Dynamic Python value: JSON scalars, lists and dicts, plus the
`PreExecutionResult(authority, tx_bytes)` object built by `execute_no_sign`
(`sync_client.py` line 173).  Typed results produced by a builder's
`handle_return` transform also live here. -/
inductive Value where
  | vnull
  | vbool (b : Bool)
  | vnat (n : Nat)
  | vstr (s : String)
  | vlist (items : List Value)
  | vdict (fields : List (String × Value))
  | vpre (authority : Value) (tx_bytes : Value)

/-- The httpx exception classes the client code mentions.  `_execute`
(lines 127-131) catches `httpx.HTTPError`, `httpx.InvalidURL` and
`httpx.CookieConflict`, which between them cover every one of these;
`get_gas_from_faucet` (line 430) catches only `httpx.ReadTimeout`. -/
inductive HttpxExc where
  | ReadTimeout
  | ConnectError
  | ConnectTimeout
  | InvalidURL
  | CookieConflict

/-- Python `hexc.__class__.__name__`, used by the f-string at line 133. -/
def HttpxExc.name : HttpxExc → String
  | .ReadTimeout => "ReadTimeout"
  | .ConnectError => "ConnectError"
  | .ConnectTimeout => "ConnectTimeout"
  | .InvalidURL => "InvalidURL"
  | .CookieConflict => "CookieConflict"

/-- Python exceptions that can escape the client uncaught. -/
inductive PyExc where
  | keyError (key : String)
  | attrError (attr : String)
  | typeError
  | uncaughtHttpx (e : HttpxExc)

/-- Outcome of one transport round trip (`self._client.post(...)` followed by
`.json()`): a parsed body, a `json.JSONDecodeError` (carrying `vars(jexc)`),
or an httpx exception (carrying `vars(hexc)`). -/
inductive TransportOutcome where
  | ok (body : Value)
  | jsonDecodeError (msg : String) (details : Value)
  | httpx (e : HttpxExc) (details : Value)

/-- `SuiRequestType` from `pysui.sui.sui_builders.base_builder`. -/
inductive SuiRequestType where
  | WAITFORLOCALEXECUTION
  | WAITFOREFFECTSCERT

/-- Shape of a posted request, recorded in the network log: the caller's own
builder, an `ExecuteTransaction` builder (tx bytes, signatures, request
type), a `DryRunTransaction` builder, or the faucet POST of
`get_gas_from_faucet`. -/
inductive BuilderKind where
  | user (name : String)
  | executeTransaction (tx_bytes : Value) (signatures : List Value) (request_type : SuiRequestType)
  | dryRunTransaction (tx_bytes : Value)
  | faucet (recipient : String)

/-- A builder as the pipeline consumes it: `txn_required` flag, `authority`
attribute and the catalog-supplied `handle_return` transform
(spec treats the builder catalog as an external collaborator). -/
structure Builder where
  kind : BuilderKind
  txn_required : Bool
  authority : Value
  handle_return : Value → Value

/-- The network: an oracle giving the transport outcome of the n-th round
trip, and the log of requests posted so far (oldest first). -/
structure Net where
  oracle : Nat → TransportOutcome
  sent : List BuilderKind

/-- One POST: consult the oracle at the current round-trip index and append
the request to the log. -/
def Net.postKind (k : BuilderKind) (net : Net) : TransportOutcome × Net :=
  (net.oracle net.sent.length, { net with sent := net.sent ++ [k] })

/-- `SuiRpcResult(result_status, result_string, result_data=None)`: the
uniform result envelope.  `result_string` holds whatever second positional
argument the source passes (a message string or an error JSON value). -/
structure SuiRpcResult where
  result_status : Bool
  result_string : Value
  result_data : Value

/-- `SuiRpcResult.is_ok()`. -/
def SuiRpcResult.is_ok (r : SuiRpcResult) : Bool :=
  r.result_status

/-- Python `k in v` on the values this client applies it to: key membership
for dicts, element membership for lists, substring test for strings, and a
`TypeError` otherwise. -/
def Value.contains : Value → String → Except PyExc Bool
  | .vdict fs, k => .ok ((fs.lookup k).isSome)
  | .vlist items, k =>
    .ok (items.any (fun v => match v with | .vstr s => s == k | _ => false))
  | .vstr s, k => .ok (((s.splitOn k).length) != 1)
  | _, _ => .error .typeError

/-- Python `v[k]` with a string key: dict lookup raising `KeyError` on a
missing key, `TypeError` on non-dict values. -/
def Value.item : Value → String → Except PyExc Value
  | .vdict fs, k =>
    match fs.lookup k with
    | some v => .ok v
    | none => .error (.keyError k)
  | _, _ => .error .typeError

/-- Python `v.tx_bytes` attribute access on a `PreExecutionResult`. -/
def Value.attr_tx_bytes : Value → Except PyExc Value
  | .vpre _ tx => .ok tx
  | _ => .error (.attrError ("tx_bytes"))

/-- Signing capability of a keypair: `kpair.new_sign_secure(tx_bytes)`
(crypto is an opaque external collaborator per the spec). -/
structure Keypair where
  new_sign_secure : Value → Value

/-- Result of `multi_sig.sign(...)`: either a `SuiSignature` (the
`isinstance(new_sig, SuiSignature)` branch at line 199) or a non-signature
error code rendered into the f-string at line 214. -/
inductive MsigResult where
  | sig (s : Value)
  | err (code : String)

/-- `MultiSig` aggregate signer, consumed as an opaque capability. -/
structure MultiSig where
  sign : Value → List Value → MsigResult

/-- Client-level collaborators the pipeline consults: the default request
type, the catalog interpretation transforms for the `ExecuteTransaction` and
`DryRunTransaction` builders, the signature production of
`sign_for_execution`, the keyring lookup `config.keypair_for_address`, and
`FaucetGasRequest.from_dict`. -/
structure Client where
  request_type : SuiRequestType
  execHandleReturn : Value → Value
  dryRunHandleReturn : Value → Value
  signSet : Value → Builder → Option (List Value) → List Value
  keypair_for_address : Value → Keypair
  faucetFromDict : Value → Value

namespace SuiClient

/-- Modelled from the spec: the `ExecuteTransaction` builder class lives in
the builder catalog (`pysui.sui.sui_builders.exec_builders`, not under
src/).  Per spec sections 2 and 4.1 it is a non-transactional builder
carrying the transaction bytes, the signature set and a request type, whose
response is interpreted by a catalog-supplied transform. -/
def ExecuteTransaction (tx_bytes : Value) (signatures : List Value)
    (request_type : SuiRequestType) (hr : Value → Value) : Builder :=
  { kind := .executeTransaction tx_bytes signatures request_type
    txn_required := false
    authority := .vnull
    handle_return := hr }

/-- Modelled from the spec: the `DryRunTransaction` builder class (builder
catalog, not under src/) is the non-transactional dry-run variant carrying
the transaction bytes (spec section 4.1, `dry_run`). -/
def DryRunTransaction (tx_bytes : Value) (hr : Value → Value) : Builder :=
  { kind := .dryRunTransaction tx_bytes
    txn_required := false
    authority := .vnull
    handle_return := hr }

/-- `SuiClient._execute` (lines 107-134): post the builder, wrap the parsed
body in a success envelope, and convert a `JSONDecodeError` or an httpx
exception into a failure envelope.  This function never raises. -/
def _execute (b : Builder) (net : Net) : SuiRpcResult × Net :=
  let r := Net.postKind b.kind net
  match r.1 with
  | .ok body => (⟨true, .vnull, body⟩, r.2)
  | .jsonDecodeError msg details =>
    (⟨false, .vstr ("JSON Decoder Error " ++ msg), details⟩, r.2)
  | .httpx e details =>
    (⟨false, .vstr ("HTTPX error: " ++ e.name), details⟩, r.2)

/-- `SuiClient.execute_no_sign` (lines 158-181): for a transactional builder
run one no-sign round trip and package a `PreExecutionResult`; for a
non-transactional builder return the `NotTransactional` failure envelope
without touching the network. -/
def execute_no_sign (b : Builder) (net : Net) : Except PyExc SuiRpcResult × Net :=
  if b.txn_required then
    let r := _execute b net
    let result := r.1
    let net := r.2
    if result.is_ok then
      let rd := result.result_data
      match rd.contains ("error") with
      | .error e => (.error e, net)
      | .ok true =>
        match rd.item ("error") with
        | .error e => (.error e, net)
        | .ok errv =>
          match errv.item ("message") with
          | .error e => (.error e, net)
          | .ok msg => (.ok ⟨false, msg, .vnull⟩, net)
      | .ok false =>
        match rd.item ("result") with
        | .error e => (.error e, net)
        | .ok res => (.ok ⟨true, .vnull, .vpre b.authority (b.handle_return res)⟩, net)
    else (.ok result, net)
  else
    (.ok ⟨false, .vstr ("execute_no_sign is used only with transaction types"), .vnull⟩, net)

/-- Modelled from the spec: `sign_for_execution` lives in `_ClientMixin`
(`pysui.sui.sui_clients.common`, not under src/).  Per spec section 4.1 it
dispatches to the Signing Adapter to produce a Signature Set and constructs
a new execute-transaction builder carrying the original bytes plus the
signatures and a requested execution semantics. -/
def sign_for_execution (c : Client) (tx_bytes : Value) (builder : Builder)
    (additional_signers : Option (List Value)) : Builder :=
  ExecuteTransaction tx_bytes (c.signSet tx_bytes builder additional_signers)
    c.request_type c.execHandleReturn

/-- `SuiClient._multi_signed_execution` (lines 273-294): no-sign round trip,
`sign_for_execution`, then a direct `_execute` of the execute builder.  On a
transport-failed or protocol-error second round trip the source evaluates
`result.result_data["error"]`, which raises `KeyError` when the key is
absent (as it is in `vars(hexc)`). -/
def _multi_signed_execution (c : Client) (b : Builder)
    (additional_signers : Option (List Value)) (net : Net) :
    Except PyExc SuiRpcResult × Net :=
  match execute_no_sign b net with
  | (.error e, net) => (.error e, net)
  | (.ok result, net) =>
    if result.is_ok then
      match result.result_data.attr_tx_bytes with
      | .error e => (.error e, net)
      | .ok txb =>
        let exec_builder := sign_for_execution c txb b additional_signers
        let r := _execute exec_builder net
        let result := r.1
        let net := r.2
        if result.is_ok then
          match result.result_data.contains ("error") with
          | .error e => (.error e, net)
          | .ok false =>
            match result.result_data.item ("result") with
            | .error e => (.error e, net)
            | .ok res => (.ok ⟨true, .vnull, exec_builder.handle_return res⟩, net)
          | .ok true =>
            match result.result_data.item ("error") with
            | .error e => (.error e, net)
            | .ok errv => (.ok ⟨false, errv, .vnull⟩, net)
        else
          match result.result_data.item ("error") with
          | .error e => (.error e, net)
          | .ok errv => (.ok ⟨false, errv, .vnull⟩, net)
    else (.ok result, net)

/-- `SuiClient.execute` (lines 136-156): non-transactional builders are
transmitted immediately and their response inspected for a top-level
`error` field; transactional builders are dispatched to
`_multi_signed_execution`. -/
def execute (c : Client) (b : Builder) (additional_signatures : Option (List Value))
    (net : Net) : Except PyExc SuiRpcResult × Net :=
  if b.txn_required = false then
    let r := _execute b net
    let result := r.1
    let net := r.2
    if result.is_ok then
      match result.result_data.contains ("error") with
      | .error e => (.error e, net)
      | .ok true =>
        match result.result_data.item ("error") with
        | .error e => (.error e, net)
        | .ok errv => (.ok ⟨false, errv, .vnull⟩, net)
      | .ok false =>
        match result.result_data.item ("result") with
        | .error e => (.error e, net)
        | .ok res => (.ok ⟨true, .vnull, b.handle_return res⟩, net)
    else (.ok result, net)
  else
    _multi_signed_execution c b additional_signatures net

/-- `SuiClient.execute_with_multisig` (lines 186-216): no-sign round trip,
aggregate `multi_sig.sign` over the returned bytes, optional additional
signers each signing the same bytes, then `execute` of an
`ExecuteTransaction` built with `SuiRequestType.WAITFORLOCALEXECUTION`;
a non-signature aggregate result yields the signing-error envelope. -/
def execute_with_multisig (c : Client) (b : Builder) (multi_sig : MultiSig)
    (pub_keys : List Value) (signers : Option (List Keypair)) (net : Net) :
    Except PyExc SuiRpcResult × Net :=
  if b.txn_required then
    match execute_no_sign b net with
    | (.error e, net) => (.error e, net)
    | (.ok result, net) =>
      if result.is_ok then
        match result.result_data.attr_tx_bytes with
        | .error e => (.error e, net)
        | .ok tx_bytes =>
          match multi_sig.sign tx_bytes pub_keys with
          | .sig new_sig =>
            let sig_array := new_sig ::
              (match signers with
               | some l => l.map (fun kpair => kpair.new_sign_secure tx_bytes)
               | none => [])
            let exec_tx := ExecuteTransaction tx_bytes sig_array
              .WAITFORLOCALEXECUTION c.execHandleReturn
            execute c exec_tx none net
          | .err code =>
            (.ok ⟨false, .vstr ("Signing error code " ++ code), .vnull⟩, net)
      else (.ok result, net)
  else
    let r := _execute b net
    (.ok r.1, r.2)

/-- `SuiClient.sign_and_submit` (lines 218-256): resolve the signer and the
optional co-signers to keypairs, sign the transaction bytes, `_execute` an
`ExecuteTransaction`, and re-wrap the response only when it is ok and free
of a top-level `error` field — otherwise the untouched `_execute` envelope
is returned.  The `SuiTxBytes` argument is identified with its underlying
bytes value (`tx_bytes.tx_bytes` in the source denotes the same payload). -/
def sign_and_submit (c : Client) (signer : Value) (tx_bytes : Value)
    (additional_signatures : Option (List Value)) (net : Net) :
    Except PyExc SuiRpcResult × Net :=
  let signers_list := c.keypair_for_address signer ::
    (match additional_signatures with
     | some l => l.map c.keypair_for_address
     | none => [])
  let builder := ExecuteTransaction tx_bytes
    (signers_list.map (fun kpair => kpair.new_sign_secure tx_bytes))
    c.request_type c.execHandleReturn
  let r := _execute builder net
  let result := r.1
  let net := r.2
  if result.is_ok then
    match result.result_data.contains ("error") with
    | .error e => (.error e, net)
    | .ok false =>
      match result.result_data.item ("result") with
      | .error e => (.error e, net)
      | .ok res => (.ok ⟨true, .vnull, builder.handle_return res⟩, net)
    | .ok true => (.ok result, net)
  else (.ok result, net)

/-- `SuiClient.dry_run` (lines 258-271): no-sign round trip, then `execute`
of a `DryRunTransaction` over the returned bytes; the `NotTransactional`
failure envelope for non-transactional builders, with no network call. -/
def dry_run (c : Client) (b : Builder) (net : Net) :
    Except PyExc SuiRpcResult × Net :=
  if b.txn_required then
    match execute_no_sign b net with
    | (.error e, net) => (.error e, net)
    | (.ok result, net) =>
      if result.is_ok then
        match result.result_data.attr_tx_bytes with
        | .error e => (.error e, net)
        | .ok txb => execute c (DryRunTransaction txb c.dryRunHandleReturn) none net
      else (.ok result, net)
  else
    (.ok ⟨false, .vstr ("dry_run is used only with transaction types"), .vnull⟩, net)

/-- `SuiClient.get_gas_from_faucet` (lines 405-433): POST to the faucet
endpoint inside a try block whose except clauses cover only
`json.JSONDecodeError`, `httpx.ReadTimeout` and `TypeError`.  Every other
exception — in particular the remaining httpx transport failures, and the
`KeyError` from `result["error"]` on a body missing that key — escapes.
The `vars(texc)` payload of the `TypeError` arm is embedded as an empty
dict. -/
def get_gas_from_faucet (c : Client) (for_address : String) (net : Net) :
    Except PyExc SuiRpcResult × Net :=
  let r := Net.postKind (.faucet for_address) net
  let net := r.2
  match r.1 with
  | .ok body =>
    match body.item ("error") with
    | .error .typeError => (.ok ⟨false, .vstr ("Type error"), .vdict []⟩, net)
    | .error e => (.error e, net)
    | .ok errv =>
      match errv with
      | .vnull => (.ok ⟨true, .vnull, c.faucetFromDict body⟩, net)
      | _ => (.ok ⟨false, errv, .vnull⟩, net)
  | .jsonDecodeError msg details =>
    (.ok ⟨false, .vstr ("JSON Decoder Error " ++ msg), details⟩, net)
  | .httpx e details =>
    match e with
    | .ReadTimeout => (.ok ⟨false, .vstr ("HTTP read timeout error"), details⟩, net)
    | _ => (.error (.uncaughtHttpx e), net)

/-- An interpreted page of a paged result set, as the pagination loops see
it after `handle_result(self.execute(builder))`: the items, the
`next_cursor` token and the `has_next_page` flag.  The page oracle used
below maps the index of a page fetch to the successfully interpreted page
it returns. -/
structure Page where
  data : List Value
  next_cursor : Option String
  has_next_page : Bool

/-- Python truthiness of an `Optional[str]` cursor: `None` and the empty
string are falsy. -/
def cursorTruthy : Option String → Bool
  | none => false
  | some s => !(s == "")

/-- The `while gasses.next_cursor:` loop of `_get_coins_for_type`
(lines 329-332), entered with the first page already fetched and its data
accumulated.  `k` is the index of the next page fetch, `gasses` the
last-seen page, `accum` the accumulator.  Returns the accumulator, the
number of page fetches the loop performed, and whether it stopped because
its own condition failed (`true`) rather than because the `fuel` bound on
unrolling ran out (`false`) — the source has no such bound. -/
def coinLoop (pages : Nat → Page) : Nat → Nat → Page → List Value →
    List Value × Nat × Bool
  | 0, _, gasses, accum =>
    if cursorTruthy gasses.next_cursor then (accum, 0, false) else (accum, 0, true)
  | fuel + 1, k, gasses, accum =>
    if cursorTruthy gasses.next_cursor then
      let g := pages k
      let r := coinLoop pages fuel (k + 1) g (accum ++ g.data)
      (r.1, r.2.1 + 1, r.2.2)
    else (accum, 0, true)

/-- The `while objects.next_cursor and objects.has_next_page:` loop of
`get_objects` (lines 482-485), same conventions as `coinLoop`. -/
def objLoop (pages : Nat → Page) : Nat → Nat → Page → List Value →
    List Value × Nat × Bool
  | 0, _, objects, accum =>
    if cursorTruthy objects.next_cursor && objects.has_next_page then
      (accum, 0, false)
    else (accum, 0, true)
  | fuel + 1, k, objects, accum =>
    if cursorTruthy objects.next_cursor && objects.has_next_page then
      let g := pages k
      let r := objLoop pages fuel (k + 1) g (accum ++ g.data)
      (r.1, r.2.1 + 1, r.2.2)
    else (accum, 0, true)

/-- `SuiClient._get_coins_for_type` (lines 302-344) after its successful
`GetCoinTypeBalance` round trip: with `coin_object_count > max_gets` and
`fetch_all` it runs the accumulation loop and rebuilds a page with a null
cursor, otherwise it issues the single legacy `GetCoins` request and
returns its page as is.  Components of the result: the returned page, the
number of `GetCoins` page fetches, and the natural-stop flag of the loop. -/
def _get_coins_for_type (max_gets coin_object_count : Nat) (fetch_all : Bool)
    (pages : Nat → Page) (fuel : Nat) : Page × Nat × Bool :=
  if coin_object_count > max_gets && fetch_all then
    let g0 := pages 0
    let r := coinLoop pages fuel 1 g0 g0.data
    ({ data := r.1, next_cursor := none, has_next_page := false }, r.2.1 + 1, r.2.2)
  else
    (pages 0, 1, true)

/-- `SuiClient.get_objects` (lines 457-495) after its successful first
round trip: pagination is entered only when the first page's cursor is
truthy and `fetch_all` is set, in which case the accumulated data replaces
the page and both end signals are nulled; otherwise the first page is
returned untouched.  Components as in `_get_coins_for_type`. -/
def get_objects (fetch_all : Bool) (pages : Nat → Page) (fuel : Nat) :
    Page × Nat × Bool :=
  let p0 := pages 0
  if cursorTruthy p0.next_cursor && fetch_all then
    let r := objLoop pages fuel 1 p0 p0.data
    ({ data := r.1, next_cursor := none, has_next_page := false }, r.2.1 + 1, r.2.2)
  else
    (p0, 1, true)

/-- Modelled from the spec: `partition` (`pysui.sui.sui_utils`, not under
src/) splits a sequence into consecutive chunks of the given size, which is
what `get_objects_for` relies on for its "Handle large list" branch.  For a
nonempty list the first chunk is the first `m` elements (written
`x :: xs.take (m - 1)` so the recursion is on a shorter list). -/
def partition (m : Nat) : List α → List (List α)
  | [] => []
  | x :: xs => (x :: xs.take (m - 1)) :: partition m (xs.drop (m - 1))
termination_by xs => xs.length
decreasing_by
  simp [List.length_drop]
  omega

/-- `SuiClient.get_objects_for` (lines 501-526): identifier lists longer
than `max_gets` are split by `partition` and one `GetMultipleObjects`
request is executed per chunk with the results extended into an
accumulator; shorter lists are issued as a single request whose envelope is
returned directly.  `fetch` maps the ids of one request to its
successfully interpreted object list (the `handle_result(self.execute(...))`
of the source).  The first component is the list of per-request id lists,
in the order issued. -/
def get_objects_for (max_gets : Nat) (fetch : List String → List Value)
    (identifiers : List String) : List (List String) × SuiRpcResult :=
  if identifiers.length > max_gets then
    let chunks := partition max_gets identifiers
    let accum := (chunks.map fetch).flatten
    (chunks, ⟨true, .vnull, .vlist accum⟩)
  else
    ([identifiers], ⟨true, .vnull, .vlist (fetch identifiers)⟩)

/-! Concrete fixtures used by witness and counterexample theorems. -/

/-- A non-transactional builder. -/
def bQuery : Builder :=
  { kind := .user ("GetObject"), txn_required := false, authority := .vnull
    handle_return := fun v => .vdict [("typed", v)] }

/-- A transactional builder. -/
def bTxn : Builder :=
  { kind := .user ("TransferSui"), txn_required := true
    authority := .vstr ("0xsender")
    handle_return := fun v => v }

/-- Concrete client collaborators. -/
def cFix : Client :=
  { request_type := .WAITFORLOCALEXECUTION
    execHandleReturn := fun v => .vdict [("execTyped", v)]
    dryRunHandleReturn := fun v => .vdict [("dryTyped", v)]
    signSet := fun tx _ _ => [.vlist [.vstr ("sig0"), tx]]
    keypair_for_address := fun a => ⟨fun tx => .vlist [a, tx]⟩
    faucetFromDict := fun v => .vdict [("faucetTyped", v)] }

/-- Two concrete keypairs for co-signing fixtures. -/
def kpA : Keypair := ⟨fun tx => .vlist [.vstr ("sigA"), tx]⟩

/-- Second concrete keypair. -/
def kpB : Keypair := ⟨fun tx => .vlist [.vstr ("sigB"), tx]⟩

/-- An aggregate signer whose `sign` yields a signature. -/
def msOk : MultiSig := ⟨fun tx _ => .sig (.vlist [.vstr ("msig"), tx])⟩

/-- An aggregate signer whose `sign` reports a non-signature result. -/
def msErr : MultiSig := ⟨fun _ _ => .err ("7")⟩

/-- Well-formed first-round-trip body carrying transaction bytes. -/
def okBody0 : List (String × Value) :=
  [("jsonrpc", .vstr ("2.0")), ("result", .vstr ("TXBYTES"))]

/-- Well-formed second-round-trip body carrying the execution result. -/
def okBody1 : List (String × Value) :=
  [("jsonrpc", .vstr ("2.0")), ("result", .vstr ("EXECRESULT"))]

/-- Well-formed body carrying a top-level protocol error object. -/
def errBody : List (String × Value) :=
  [("jsonrpc", .vstr ("2.0")),
   ("error", .vdict [("code", .vnat 7), ("message", .vstr ("boom"))])]

/-- Oracle: both round trips succeed with well-formed bodies. -/
def oracleTwoOk : Nat → TransportOutcome := fun n =>
  if n = 0 then .ok (.vdict okBody0) else .ok (.vdict okBody1)

/-- Oracle: every round trip returns the protocol-error body. -/
def oracleErr : Nat → TransportOutcome := fun _ => .ok (.vdict errBody)

/-- Oracle: construct succeeds, the signed execute returns a protocol
error. -/
def oracleOkThenErr : Nat → TransportOutcome := fun n =>
  if n = 0 then .ok (.vdict okBody0) else .ok (.vdict errBody)

/-- Oracle: every round trip raises `httpx.ConnectError`. -/
def oracleConnErr : Nat → TransportOutcome := fun _ =>
  .httpx .ConnectError (.vdict [])

/-- Oracle: construct succeeds, the signed execute raises
`httpx.ReadTimeout` (whose `vars` carry no `error` key). -/
def oracleOkThenTimeout : Nat → TransportOutcome := fun n =>
  if n = 0 then .ok (.vdict okBody0) else .httpx .ReadTimeout (.vdict [("request", .vnull)])

/-- Oracle: every round trip raises `json.JSONDecodeError`. -/
def oracleDecode : Nat → TransportOutcome := fun _ =>
  .jsonDecodeError ("Expecting value") (.vdict [("msg", .vstr ("Expecting value"))])

/-- Oracle: every round trip raises `httpx.ReadTimeout`. -/
def oracleTimeout : Nat → TransportOutcome := fun _ =>
  .httpx .ReadTimeout (.vdict [("request", .vnull)])

/-- A page whose `has_next_page` is false while its `next_cursor` is
non-empty. -/
def pgNC : Page := ⟨[.vstr ("item")], some ("cursor-1"), false⟩

/-- Page oracle constantly returning `pgNC`. -/
def pagesNC : Nat → Page := fun _ => pgNC

/-- A middle page: items, a non-empty cursor, `has_next_page` true. -/
def pgCur : Page := ⟨[.vstr ("a")], some ("next"), true⟩

/-- A final page: the provider reports no further pages. -/
def pgEnd : Page := ⟨[.vstr ("z")], none, false⟩

/-- A well-behaved source: three middle pages, then the final page. -/
def pagesEnd : Nat → Page := fun n => if n < 3 then pgCur else pgEnd

/-- The page a misbehaving provider returns forever: a non-empty cursor and
`has_next_page` true. -/
def badPage : Page := ⟨[], some ("cursor"), true⟩

/-- The misbehaving provider. -/
def badPages : Nat → Page := fun _ => badPage

/-- Concrete identifier list of length 5 for the chunking witness. -/
def wIds : List String := ["a", "b", "c", "d", "e"]

/-- Concrete per-identifier object for the chunking witness. -/
def wF : String → Value := fun s => .vdict [("objectId", .vstr s)]

/-- Order-preserving per-chunk fetcher for the chunking witness. -/
def wFetch : List String → List Value := fun chunk => chunk.map wF

/-! Theorems. -/

/-- C2: for every non-transactional builder (`txn_required` false), both
`execute_no_sign` and `dry_run` return the `NotTransactional` failure
envelope (carrying the respective "used only with transaction types"
message, with empty data) and leave the network untouched: the returned
`Net` is the input `Net`, so zero round trips were issued. -/
theorem not_transactional_zero_network (c : Client) (b : Builder) (net : Net)
    (h : b.txn_required = false) :
    execute_no_sign b net =
      (.ok ⟨false, .vstr ("execute_no_sign is used only with transaction types"), .vnull⟩, net) ∧
    dry_run c b net =
      (.ok ⟨false, .vstr ("dry_run is used only with transaction types"), .vnull⟩, net) := by
  constructor
  · simp [execute_no_sign, h]
  · simp [dry_run, h]

/-- Witness for C2 at the concrete non-transactional builder `bQuery`. -/
theorem not_transactional_zero_network_witness :
    execute_no_sign bQuery ⟨oracleTwoOk, []⟩ =
      (.ok ⟨false, .vstr ("execute_no_sign is used only with transaction types"), .vnull⟩,
       ⟨oracleTwoOk, []⟩) ∧
    dry_run cFix bQuery ⟨oracleTwoOk, []⟩ =
      (.ok ⟨false, .vstr ("dry_run is used only with transaction types"), .vnull⟩,
       ⟨oracleTwoOk, []⟩) :=
  not_transactional_zero_network cFix bQuery ⟨oracleTwoOk, []⟩ rfl

/-- C7: with `fetch_all = false` both paginating operations return exactly
the first page and issue a single page request — no cursor-following round
trips — whatever the page oracle (in particular even when the first
response carries a cursor, a `has_next_page` flag, or a
`coin_object_count` above `max_gets`). -/
theorem fetch_all_false_first_page_only (max_gets coin_object_count : Nat)
    (pages : Nat → Page) (fuel : Nat) :
    _get_coins_for_type max_gets coin_object_count false pages fuel = (pages 0, 1, true) ∧
    get_objects false pages fuel = (pages 0, 1, true) := by
  constructor
  · simp [_get_coins_for_type]
  · simp [get_objects]

/-- C5: the two pagination loops keep their distinct stopping conditions.
The coin loop performs a further fetch exactly when the last page's cursor
is truthy — independently of `has_next_page` — while the object loop
performs a further fetch exactly when the cursor is truthy and
`has_next_page` is true.  Consequently a page with `has_next_page = false`
but a non-empty cursor lets the object loop fetch at most one page more
(in fact none), and `get_objects` on a first page of that shape issues
exactly its one initial request. -/
theorem pagination_stop_variants (pages : Nat → Page) (fuel k : Nat)
    (g : Page) (acc : List Value) (h : 0 < fuel) :
    (0 < (coinLoop pages fuel k g acc).2.1 ↔ cursorTruthy g.next_cursor = true) ∧
    (0 < (objLoop pages fuel k g acc).2.1 ↔
      (cursorTruthy g.next_cursor = true ∧ g.has_next_page = true)) ∧
    (cursorTruthy g.next_cursor = true → g.has_next_page = false →
      (objLoop pages fuel k g acc).2.1 ≤ 1) ∧
    (cursorTruthy (pages 0).next_cursor = true → (pages 0).has_next_page = false →
      (get_objects true pages fuel).2.1 = 1) := by
  obtain ⟨f, rfl⟩ : ∃ f, fuel = f + 1 := ⟨fuel - 1, by omega⟩
  refine ⟨?_, ?_, ?_, ?_⟩
  · by_cases hc : cursorTruthy g.next_cursor <;> simp [coinLoop, hc]
  · by_cases hc : cursorTruthy g.next_cursor <;>
      by_cases hn : g.has_next_page <;> simp [objLoop, hc, hn]
  · intro hc hn
    simp [objLoop, hc, hn]
  · intro hc hn
    simp [get_objects, objLoop, hc, hn]

/-- Witness for C5 at a concrete page whose cursor is non-empty while
`has_next_page` is false. -/
theorem pagination_stop_variants_witness :
    (0 < (coinLoop pagesNC 3 1 pgNC []).2.1 ↔ cursorTruthy pgNC.next_cursor = true) ∧
    (0 < (objLoop pagesNC 3 1 pgNC []).2.1 ↔
      (cursorTruthy pgNC.next_cursor = true ∧ pgNC.has_next_page = true)) ∧
    (cursorTruthy pgNC.next_cursor = true → pgNC.has_next_page = false →
      (objLoop pagesNC 3 1 pgNC []).2.1 ≤ 1) ∧
    (cursorTruthy (pagesNC 0).next_cursor = true → (pagesNC 0).has_next_page = false →
      (get_objects true pagesNC 3).2.1 = 1) :=
  pagination_stop_variants pagesNC 3 1 pgNC [] (by decide)

/-- The coin loop returns immediately when the last page's cursor is
falsy. -/
theorem coinLoop_halt (pages : Nat → Page) (fuel k : Nat) (g : Page)
    (acc : List Value) (h : cursorTruthy g.next_cursor = false) :
    coinLoop pages fuel k g acc = (acc, 0, true) := by
  cases fuel <;> simp [coinLoop, h]

/-- The object loop returns immediately when either end signal fires. -/
theorem objLoop_halt (pages : Nat → Page) (fuel k : Nat) (g : Page)
    (acc : List Value) (h : (cursorTruthy g.next_cursor && g.has_next_page) = false) :
    objLoop pages fuel k g acc = (acc, 0, true) := by
  cases fuel <;> simp [objLoop, h]

/-- If the source's page `j` reports the end of the coin listing (falsy
cursor), the coin loop entered at fetch index `k ≤ j` performs at most
`j + 1 - k` fetches and stops through its own condition, for any
sufficiently large unrolling bound. -/
theorem coinLoop_stops (pages : Nat → Page) (j : Nat)
    (hj : cursorTruthy (pages j).next_cursor = false) :
    ∀ (fuel k : Nat) (g : Page) (acc : List Value), k ≤ j → j + 1 - k ≤ fuel →
      (coinLoop pages fuel k g acc).2.1 ≤ j + 1 - k ∧
      (coinLoop pages fuel k g acc).2.2 = true := by
  intro fuel
  induction fuel with
  | zero => intro k g acc hk hf; omega
  | succ f ih =>
    intro k g acc hk hf
    by_cases hc : cursorTruthy g.next_cursor
    · rcases Nat.lt_or_ge k j with hkj | hkj
      · obtain ⟨h1, h2⟩ := ih (k + 1) (pages k) (acc ++ (pages k).data)
          (by omega) (by omega)
        simp only [coinLoop, hc, if_true]
        exact ⟨by omega, h2⟩
      · have hkj' : k = j := by omega
        subst hkj'
        have hh := coinLoop_halt pages f (k + 1) (pages k) (acc ++ (pages k).data) hj
        refine ⟨?_, ?_⟩ <;> simp [coinLoop, hc, hh]
    · rw [coinLoop_halt pages (f + 1) k g acc (by simpa using hc)]
      simp


/-- If the source's page `j` reports the end of the object listing (falsy
cursor or `has_next_page` false), the object loop entered at fetch index
`k ≤ j` performs at most `j + 1 - k` fetches and stops through its own
condition. -/
theorem objLoop_stops (pages : Nat → Page) (j : Nat)
    (hj : (cursorTruthy (pages j).next_cursor && (pages j).has_next_page) = false) :
    ∀ (fuel k : Nat) (g : Page) (acc : List Value), k ≤ j → j + 1 - k ≤ fuel →
      (objLoop pages fuel k g acc).2.1 ≤ j + 1 - k ∧
      (objLoop pages fuel k g acc).2.2 = true := by
  intro fuel
  induction fuel with
  | zero => intro k g acc hk hf; omega
  | succ f ih =>
    intro k g acc hk hf
    by_cases hc : (cursorTruthy g.next_cursor && g.has_next_page) = true
    · rcases Nat.lt_or_ge k j with hkj | hkj
      · obtain ⟨h1, h2⟩ := ih (k + 1) (pages k) (acc ++ (pages k).data)
          (by omega) (by omega)
        simp only [objLoop, hc, if_true]
        exact ⟨by omega, h2⟩
      · have hkj' : k = j := by omega
        subst hkj'
        have hh := objLoop_halt pages f (k + 1) (pages k) (acc ++ (pages k).data) hj
        refine ⟨?_, ?_⟩ <;> simp [objLoop, hc, hh]
    · rw [objLoop_halt pages (f + 1) k g acc (by simpa using hc)]
      simp

/-- Against the misbehaving provider the coin loop consumes every allowed
unrolling without its stop condition ever firing: for any bound `fuel` it
performs exactly `fuel` fetches (accumulating nothing, as `badPage` is
empty) and reports that it did not stop naturally. -/
theorem coinLoop_badPages (fuel : Nat) :
    ∀ (k : Nat) (g : Page) (acc : List Value), cursorTruthy g.next_cursor = true →
      coinLoop badPages fuel k g acc = (acc, fuel, false) := by
  induction fuel with
  | zero => intro k g acc hc; simp [coinLoop, hc]
  | succ f ih =>
    intro k g acc hc
    simp only [coinLoop, hc, if_true]
    rw [show badPages k = badPage from rfl,
      ih (k + 1) badPage (acc ++ badPage.data) rfl]
    simp [badPage]

/-- Against the misbehaving provider the object loop likewise performs
exactly `fuel` fetches without stopping naturally. -/
theorem objLoop_badPages (fuel : Nat) :
    ∀ (k : Nat) (g : Page) (acc : List Value),
      (cursorTruthy g.next_cursor && g.has_next_page) = true →
      objLoop badPages fuel k g acc = (acc, fuel, false) := by
  induction fuel with
  | zero => intro k g acc hc; simp [objLoop, hc]
  | succ f ih =>
    intro k g acc hc
    simp only [objLoop, hc, if_true]
    rw [show badPages k = badPage from rfl,
      ih (k + 1) badPage (acc ++ badPage.data) rfl]
    simp [badPage]

/-- C6 counterexample: the source has no page-count ceiling, so a
misbehaving provider that keeps returning a non-empty cursor (and
`has_next_page = true`) drives both accumulation loops for as many
iterations as the unrolling bound allows without their stop conditions
ever firing: with 6 (or 100) unrollings the coin loop performs 6
(resp. 100) fetches and reports a non-natural stop, and likewise the
object loop — contradicting the claim that the iteration count is always
bounded by the page count of the source or by a ceiling. -/
theorem pagination_no_ceiling_counterexample :
    (coinLoop badPages 6 1 badPage []).2 = (6, false) ∧
    (coinLoop badPages 100 1 badPage []).2 = (100, false) ∧
    (objLoop badPages 100 1 badPage []).2 = (100, false) :=
  ⟨rfl, rfl, rfl⟩

/-- C6 amended: when the provider itself reports an end — a falsy cursor at
some page `j` for the coin listing; a falsy cursor or a false
`has_next_page` for the object listing — each loop performs at most
`j + 1 - k` further fetches from fetch index `k ≤ j` and stops through its
own condition (so a source of `N` pages is exhausted within `N + 1`
iterations).  But no page-count ceiling exists: on a provider that always
returns a non-empty cursor with `has_next_page = true`, both loops run for
exactly as many fetches as any unrolling bound allows, never reaching
their stop conditions — the iteration count is unbounded. -/
theorem pagination_termination_amended :
    (∀ (pages : Nat → Page) (j fuel k : Nat) (g : Page) (acc : List Value),
        cursorTruthy (pages j).next_cursor = false → k ≤ j → j + 1 - k ≤ fuel →
        (coinLoop pages fuel k g acc).2.1 ≤ j + 1 - k ∧
        (coinLoop pages fuel k g acc).2.2 = true) ∧
    (∀ (pages : Nat → Page) (j fuel k : Nat) (g : Page) (acc : List Value),
        (cursorTruthy (pages j).next_cursor && (pages j).has_next_page) = false →
        k ≤ j → j + 1 - k ≤ fuel →
        (objLoop pages fuel k g acc).2.1 ≤ j + 1 - k ∧
        (objLoop pages fuel k g acc).2.2 = true) ∧
    (∀ (fuel k : Nat) (g : Page) (acc : List Value),
        cursorTruthy g.next_cursor = true →
        coinLoop badPages fuel k g acc = (acc, fuel, false)) ∧
    (∀ (fuel k : Nat) (g : Page) (acc : List Value),
        (cursorTruthy g.next_cursor && g.has_next_page) = true →
        objLoop badPages fuel k g acc = (acc, fuel, false)) :=
  ⟨fun pages j fuel k g acc hj hk hf => coinLoop_stops pages j hj fuel k g acc hk hf,
   fun pages j fuel k g acc hj hk hf => objLoop_stops pages j hj fuel k g acc hk hf,
   fun fuel k g acc hc => coinLoop_badPages fuel k g acc hc,
   fun fuel k g acc hc => objLoop_badPages fuel k g acc hc⟩

/-- Witness for the amended C6: `pagesEnd` ends at its page 3, so from
fetch index 1 both loops perform at most 3 fetches and stop naturally with
4 unrollings allowed; against `badPages` both loops consume all 5 allowed
unrollings without a natural stop. -/
theorem pagination_termination_amended_witness :
    ((coinLoop pagesEnd 4 1 pgCur []).2.1 ≤ 3 + 1 - 1 ∧
     (coinLoop pagesEnd 4 1 pgCur []).2.2 = true) ∧
    ((objLoop pagesEnd 4 1 pgCur []).2.1 ≤ 3 + 1 - 1 ∧
     (objLoop pagesEnd 4 1 pgCur []).2.2 = true) ∧
    coinLoop badPages 5 1 badPage [] = ([], 5, false) ∧
    objLoop badPages 5 1 badPage [] = ([], 5, false) :=
  ⟨pagination_termination_amended.1 pagesEnd 3 4 1 pgCur [] rfl (by decide) (by decide),
   pagination_termination_amended.2.1 pagesEnd 3 4 1 pgCur [] rfl (by decide) (by decide),
   pagination_termination_amended.2.2.1 5 1 badPage [] rfl,
   pagination_termination_amended.2.2.2 5 1 badPage [] rfl⟩

/-- `_execute` posts exactly one request, whatever the transport
outcome. -/
theorem _execute_net (b : Builder) (net : Net) :
    (_execute b net).2 = ⟨net.oracle, net.sent ++ [b.kind]⟩ := by
  cases ho : net.oracle net.sent.length <;>
    simp [_execute, Net.postKind, ho]

/-- For a non-transactional builder `execute` posts exactly one request —
whatever the transport outcome and body shape — leaving the network log
extended by the builder's own request. -/
theorem execute_nontxn_net (c : Client) (b : Builder) (addl : Option (List Value))
    (net : Net) (h : b.txn_required = false) :
    (execute c b addl net).2 = ⟨net.oracle, net.sent ++ [b.kind]⟩ := by
  simp only [execute, h]
  simp only [eq_self_iff_true, if_true]
  repeat' split
  all_goals exact _execute_net b net

/-- C1: for a transactional builder with a well-formed construct response,
`execute` issues exactly two round trips in order — first the builder's own
no-sign construct request, then the signed `ExecuteTransaction` carrying
the bytes interpreted out of the first response — and the final envelope's
data is the execute-transaction builder's interpretation of the second
response's `result` field; the first response contributes only the
transaction bytes, never the final typed result. -/
theorem execute_transactional_two_round_trips (c : Client) (b : Builder)
    (addl : Option (List Value)) (oracle : Nat → TransportOutcome)
    (fs0 fs1 : List (String × Value)) (r0 r1 : Value)
    (hb : b.txn_required = true)
    (h0 : oracle 0 = .ok (.vdict fs0))
    (h0e : fs0.lookup ("error") = none)
    (h0r : fs0.lookup ("result") = some r0)
    (h1 : oracle 1 = .ok (.vdict fs1))
    (h1e : fs1.lookup ("error") = none)
    (h1r : fs1.lookup ("result") = some r1) :
    (execute c b addl ⟨oracle, []⟩).2.sent =
      [b.kind,
       .executeTransaction (b.handle_return r0)
         (c.signSet (b.handle_return r0) b addl) c.request_type] ∧
    (execute c b addl ⟨oracle, []⟩).1 = .ok ⟨true, .vnull, c.execHandleReturn r1⟩ := by
  constructor <;>
    simp [execute, hb, _multi_signed_execution, execute_no_sign, _execute,
      Net.postKind, h0, h1, h0e, h0r, h1e, h1r, Value.contains, Value.item,
      Value.attr_tx_bytes, sign_for_execution, ExecuteTransaction,
      SuiRpcResult.is_ok]

/-- Witness for C1 at concrete fixtures: the two posted requests and the
final interpreted envelope. -/
theorem execute_transactional_two_round_trips_witness :
    (execute cFix bTxn none ⟨oracleTwoOk, []⟩).2.sent =
      [bTxn.kind,
       .executeTransaction (.vstr ("TXBYTES"))
         [.vlist [.vstr ("sig0"), .vstr ("TXBYTES")]] .WAITFORLOCALEXECUTION] ∧
    (execute cFix bTxn none ⟨oracleTwoOk, []⟩).1 =
      .ok ⟨true, .vnull, .vdict [("execTyped", .vstr ("EXECRESULT"))]⟩ :=
  execute_transactional_two_round_trips cFix bTxn none oracleTwoOk okBody0 okBody1
    (.vstr ("TXBYTES")) (.vstr ("EXECRESULT")) rfl rfl rfl rfl rfl rfl rfl

/-- C8: in the multisig execution path with a successful aggregate signing
step and `k` additional signers, the signature set submitted for execution
is the aggregate signature followed by the additional signers' signatures
in caller-supplied order, each produced over the same transaction-byte
buffer, and has length `1 + k`; the submission is the second posted
request. -/
theorem multisig_signature_set_order (c : Client) (b : Builder) (ms : MultiSig)
    (pks : List Value) (ks : List Keypair) (oracle : Nat → TransportOutcome)
    (fs0 : List (String × Value)) (r0 s : Value)
    (hb : b.txn_required = true)
    (h0 : oracle 0 = .ok (.vdict fs0))
    (h0e : fs0.lookup ("error") = none)
    (h0r : fs0.lookup ("result") = some r0)
    (hsig : ms.sign (b.handle_return r0) pks = .sig s) :
    (execute_with_multisig c b ms pks (some ks) ⟨oracle, []⟩).2.sent =
      [b.kind,
       .executeTransaction (b.handle_return r0)
         (s :: ks.map (fun kp => kp.new_sign_secure (b.handle_return r0)))
         .WAITFORLOCALEXECUTION] ∧
    (s :: ks.map (fun kp => kp.new_sign_secure (b.handle_return r0))).length =
      1 + ks.length := by
  constructor
  · simp [execute_with_multisig, hb, execute_no_sign, _execute, Net.postKind,
      h0, h0e, h0r, hsig, Value.contains, Value.item, Value.attr_tx_bytes,
      SuiRpcResult.is_ok, execute_nontxn_net, ExecuteTransaction]
  · simp [Nat.add_comm]

/-- Witness for C8 with one aggregate signer and two additional signers:
the submitted signature set has length 3 and keeps the caller order, every
signature over the same bytes. -/
theorem multisig_signature_set_order_witness :
    (execute_with_multisig cFix bTxn msOk [] (some [kpA, kpB]) ⟨oracleTwoOk, []⟩).2.sent =
      [bTxn.kind,
       .executeTransaction (.vstr ("TXBYTES"))
         [.vlist [.vstr ("msig"), .vstr ("TXBYTES")],
          .vlist [.vstr ("sigA"), .vstr ("TXBYTES")],
          .vlist [.vstr ("sigB"), .vstr ("TXBYTES")]]
         .WAITFORLOCALEXECUTION] ∧
    ([Value.vlist [.vstr ("msig"), .vstr ("TXBYTES")],
      .vlist [.vstr ("sigA"), .vstr ("TXBYTES")],
      .vlist [.vstr ("sigB"), .vstr ("TXBYTES")]]).length = 1 + 2 :=
  multisig_signature_set_order cFix bTxn msOk [] [kpA, kpB] oracleTwoOk okBody0
    (.vstr ("TXBYTES")) (.vlist [.vstr ("msig"), .vstr ("TXBYTES")])
    rfl rfl rfl rfl rfl

/-- C9: when the aggregate signing step reports a non-signature result,
`execute_with_multisig` returns the signing-error failure envelope as the
execution result — no exception — and the network log still holds only the
construct request: no execute round trip is issued for the transaction. -/
theorem multisig_signing_error_envelope (c : Client) (b : Builder) (ms : MultiSig)
    (pks : List Value) (signers : Option (List Keypair)) (oracle : Nat → TransportOutcome)
    (fs0 : List (String × Value)) (r0 : Value) (code : String)
    (hb : b.txn_required = true)
    (h0 : oracle 0 = .ok (.vdict fs0))
    (h0e : fs0.lookup ("error") = none)
    (h0r : fs0.lookup ("result") = some r0)
    (hsig : ms.sign (b.handle_return r0) pks = .err code) :
    execute_with_multisig c b ms pks signers ⟨oracle, []⟩ =
      (.ok ⟨false, .vstr ("Signing error code " ++ code), .vnull⟩,
       ⟨oracle, [b.kind]⟩) := by
  simp [execute_with_multisig, hb, execute_no_sign, _execute, Net.postKind,
    h0, h0e, h0r, hsig, Value.contains, Value.item, Value.attr_tx_bytes,
    SuiRpcResult.is_ok]

/-- Witness for C9: a concrete aggregate signer reporting error code 7. -/
theorem multisig_signing_error_envelope_witness :
    execute_with_multisig cFix bTxn msErr [] none ⟨oracleTwoOk, []⟩ =
      (.ok ⟨false, .vstr ("Signing error code 7"), .vnull⟩,
       ⟨oracleTwoOk, [bTxn.kind]⟩) :=
  multisig_signing_error_envelope cFix bTxn msErr [] none oracleTwoOk okBody0
    (.vstr ("TXBYTES")) ("7") rfl rfl rfl rfl rfl

/-- C3 counterexample: `sign_and_submit` against a transport-successful
response whose JSON carries a top-level `error` field does NOT return a
failure envelope — it returns the untouched transport envelope, a SUCCESS
envelope (`result_status = true`) whose data is the raw JSON body,
contradicting the claim that every execution entry point surfaces such an
error as a failure envelope. -/
theorem sign_and_submit_error_counterexample :
    (sign_and_submit cFix (.vstr ("0xsigner")) (.vstr ("TXB")) none ⟨oracleErr, []⟩).1 =
      .ok ⟨true, .vnull, .vdict errBody⟩ := rfl

/-- C3 amended: on a transport-successful response, `execute` on a
non-signing builder and the final execute step of the signing path surface
a top-level `error` field as a failure envelope carrying the error field's
value, and otherwise pass the `result` field through the builder's
interpretation and wrap as success; `sign_and_submit`, however, returns
the transport success envelope with the raw JSON unmodified whenever the
`error` field is present, interpreting the response only when it is
absent. -/
theorem protocol_error_surfacing_amended :
    (∀ (c : Client) (b : Builder) (addl : Option (List Value))
       (oracle : Nat → TransportOutcome) (fs : List (String × Value)) (errv : Value),
       b.txn_required = false → oracle 0 = .ok (.vdict fs) →
       fs.lookup ("error") = some errv →
       (execute c b addl ⟨oracle, []⟩).1 = .ok ⟨false, errv, .vnull⟩) ∧
    (∀ (c : Client) (b : Builder) (addl : Option (List Value))
       (oracle : Nat → TransportOutcome) (fs : List (String × Value)) (r : Value),
       b.txn_required = false → oracle 0 = .ok (.vdict fs) →
       fs.lookup ("error") = none → fs.lookup ("result") = some r →
       (execute c b addl ⟨oracle, []⟩).1 = .ok ⟨true, .vnull, b.handle_return r⟩) ∧
    (∀ (c : Client) (b : Builder) (addl : Option (List Value))
       (oracle : Nat → TransportOutcome) (fs0 fs1 : List (String × Value)) (r0 errv : Value),
       b.txn_required = true → oracle 0 = .ok (.vdict fs0) →
       fs0.lookup ("error") = none → fs0.lookup ("result") = some r0 →
       oracle 1 = .ok (.vdict fs1) → fs1.lookup ("error") = some errv →
       (execute c b addl ⟨oracle, []⟩).1 = .ok ⟨false, errv, .vnull⟩) ∧
    (∀ (c : Client) (signer txb : Value) (addl : Option (List Value))
       (oracle : Nat → TransportOutcome) (fs : List (String × Value)) (errv : Value),
       oracle 0 = .ok (.vdict fs) → fs.lookup ("error") = some errv →
       (sign_and_submit c signer txb addl ⟨oracle, []⟩).1 =
         .ok ⟨true, .vnull, .vdict fs⟩) ∧
    (∀ (c : Client) (signer txb : Value) (addl : Option (List Value))
       (oracle : Nat → TransportOutcome) (fs : List (String × Value)) (r : Value),
       oracle 0 = .ok (.vdict fs) → fs.lookup ("error") = none →
       fs.lookup ("result") = some r →
       (sign_and_submit c signer txb addl ⟨oracle, []⟩).1 =
         .ok ⟨true, .vnull, c.execHandleReturn r⟩) := by
  refine ⟨?_, ?_, ?_, ?_, ?_⟩
  · intro c b addl oracle fs errv hb h0 he
    simp [execute, hb, _execute, Net.postKind, h0, he, Value.contains, Value.item,
      SuiRpcResult.is_ok]
  · intro c b addl oracle fs r hb h0 he hr
    simp [execute, hb, _execute, Net.postKind, h0, he, hr, Value.contains, Value.item,
      SuiRpcResult.is_ok]
  · intro c b addl oracle fs0 fs1 r0 errv hb h0 h0e h0r h1 h1e
    simp [execute, hb, _multi_signed_execution, execute_no_sign, _execute,
      Net.postKind, h0, h0e, h0r, h1, h1e, Value.contains, Value.item,
      Value.attr_tx_bytes, sign_for_execution, ExecuteTransaction,
      SuiRpcResult.is_ok]
  · intro c signer txb addl oracle fs errv h0 he
    simp [sign_and_submit, _execute, Net.postKind, h0, he, Value.contains,
      Value.item, ExecuteTransaction, SuiRpcResult.is_ok]
  · intro c signer txb addl oracle fs r h0 he hr
    simp [sign_and_submit, _execute, Net.postKind, h0, he, hr, Value.contains,
      Value.item, ExecuteTransaction, SuiRpcResult.is_ok]

/-- Witness for the amended C3, one concrete instance per entry point and
response shape. -/
theorem protocol_error_surfacing_amended_witness :
    (execute cFix bQuery none ⟨oracleErr, []⟩).1 =
      .ok ⟨false, .vdict [("code", .vnat 7), ("message", .vstr ("boom"))], .vnull⟩ ∧
    (execute cFix bQuery none ⟨oracleTwoOk, []⟩).1 =
      .ok ⟨true, .vnull, bQuery.handle_return (.vstr ("TXBYTES"))⟩ ∧
    (execute cFix bTxn none ⟨oracleOkThenErr, []⟩).1 =
      .ok ⟨false, .vdict [("code", .vnat 7), ("message", .vstr ("boom"))], .vnull⟩ ∧
    (sign_and_submit cFix (.vstr ("0xsigner")) (.vstr ("TXB")) none ⟨oracleErr, []⟩).1 =
      .ok ⟨true, .vnull, .vdict errBody⟩ ∧
    (sign_and_submit cFix (.vstr ("0xsigner")) (.vstr ("TXB")) none ⟨oracleTwoOk, []⟩).1 =
      .ok ⟨true, .vnull, cFix.execHandleReturn (.vstr ("TXBYTES"))⟩ :=
  ⟨protocol_error_surfacing_amended.1 cFix bQuery none oracleErr errBody
     (.vdict [("code", .vnat 7), ("message", .vstr ("boom"))]) rfl rfl rfl,
   protocol_error_surfacing_amended.2.1 cFix bQuery none oracleTwoOk okBody0
     (.vstr ("TXBYTES")) rfl rfl rfl rfl,
   protocol_error_surfacing_amended.2.2.1 cFix bTxn none oracleOkThenErr okBody0 errBody
     (.vstr ("TXBYTES")) (.vdict [("code", .vnat 7), ("message", .vstr ("boom"))])
     rfl rfl rfl rfl rfl rfl,
   protocol_error_surfacing_amended.2.2.2.1 cFix (.vstr ("0xsigner")) (.vstr ("TXB"))
     none oracleErr errBody
     (.vdict [("code", .vnat 7), ("message", .vstr ("boom"))]) rfl rfl,
   protocol_error_surfacing_amended.2.2.2.2 cFix (.vstr ("0xsigner")) (.vstr ("TXB"))
     none oracleTwoOk okBody0 (.vstr ("TXBYTES")) rfl rfl rfl⟩

/-- C4 counterexample: two decode/transport failures that escape the
client's public interface as uncaught exceptions instead of failure
envelopes.  First, `get_gas_from_faucet` with a transport layer raising
`httpx.ConnectError` propagates the exception (its except clauses cover
only `JSONDecodeError`, `httpx.ReadTimeout` and `TypeError`).  Second,
`execute` on a transactional builder whose signed-execute round trip
raises `httpx.ReadTimeout` crashes with `KeyError` on `"error"`: the
signing path evaluates `result.result_data["error"]` on the transport
failure envelope, whose `vars(hexc)` data has no such key. -/
theorem transport_failure_escape_counterexample :
    (get_gas_from_faucet cFix ("0xabc") ⟨oracleConnErr, []⟩).1 =
      .error (.uncaughtHttpx .ConnectError) ∧
    (execute cFix bTxn none ⟨oracleOkThenTimeout, []⟩).1 =
      .error (.keyError ("error")) :=
  ⟨rfl, rfl⟩

/-- C4 amended: `_execute` converts every malformed-JSON body into the
decode-error failure envelope and every httpx transport failure
(connection error, timeout, invalid URL, cookie conflict) into the
transport-error failure envelope, and `execute` on a non-transactional
builder returns these envelopes to the caller; `get_gas_from_faucet`
converts malformed JSON and read timeouts into failure envelopes — but it
lets the other transport failures escape, and the transactional path lets
a `KeyError` escape when the signed-execute round trip fails (see the
counterexample). -/
theorem transport_decode_envelopes_amended :
    (∀ (b : Builder) (oracle : Nat → TransportOutcome) (msg : String) (d : Value),
       oracle 0 = .jsonDecodeError msg d →
       (_execute b ⟨oracle, []⟩).1 =
         ⟨false, .vstr ("JSON Decoder Error " ++ msg), d⟩) ∧
    (∀ (b : Builder) (oracle : Nat → TransportOutcome) (e : HttpxExc) (d : Value),
       oracle 0 = .httpx e d →
       (_execute b ⟨oracle, []⟩).1 =
         ⟨false, .vstr ("HTTPX error: " ++ e.name), d⟩) ∧
    (∀ (c : Client) (b : Builder) (addl : Option (List Value))
       (oracle : Nat → TransportOutcome) (msg : String) (d : Value),
       b.txn_required = false → oracle 0 = .jsonDecodeError msg d →
       (execute c b addl ⟨oracle, []⟩).1 =
         .ok ⟨false, .vstr ("JSON Decoder Error " ++ msg), d⟩) ∧
    (∀ (c : Client) (b : Builder) (addl : Option (List Value))
       (oracle : Nat → TransportOutcome) (e : HttpxExc) (d : Value),
       b.txn_required = false → oracle 0 = .httpx e d →
       (execute c b addl ⟨oracle, []⟩).1 =
         .ok ⟨false, .vstr ("HTTPX error: " ++ e.name), d⟩) ∧
    (∀ (c : Client) (a : String) (oracle : Nat → TransportOutcome) (msg : String) (d : Value),
       oracle 0 = .jsonDecodeError msg d →
       (get_gas_from_faucet c a ⟨oracle, []⟩).1 =
         .ok ⟨false, .vstr ("JSON Decoder Error " ++ msg), d⟩) ∧
    (∀ (c : Client) (a : String) (oracle : Nat → TransportOutcome) (d : Value),
       oracle 0 = .httpx .ReadTimeout d →
       (get_gas_from_faucet c a ⟨oracle, []⟩).1 =
         .ok ⟨false, .vstr ("HTTP read timeout error"), d⟩) := by
  refine ⟨?_, ?_, ?_, ?_, ?_, ?_⟩
  · intro b oracle msg d h0
    simp [_execute, Net.postKind, h0]
  · intro b oracle e d h0
    simp [_execute, Net.postKind, h0]
  · intro c b addl oracle msg d hb h0
    simp [execute, hb, _execute, Net.postKind, h0, SuiRpcResult.is_ok]
  · intro c b addl oracle e d hb h0
    simp [execute, hb, _execute, Net.postKind, h0, SuiRpcResult.is_ok]
  · intro c a oracle msg d h0
    simp [get_gas_from_faucet, Net.postKind, h0]
  · intro c a oracle d h0
    simp [get_gas_from_faucet, Net.postKind, h0]

/-- Witness for the amended C4, one concrete instance per conjunct. -/
theorem transport_decode_envelopes_amended_witness :
    (_execute bQuery ⟨oracleDecode, []⟩).1 =
      ⟨false, .vstr ("JSON Decoder Error Expecting value"),
       .vdict [("msg", .vstr ("Expecting value"))]⟩ ∧
    (_execute bQuery ⟨oracleConnErr, []⟩).1 =
      ⟨false, .vstr ("HTTPX error: ConnectError"), .vdict []⟩ ∧
    (execute cFix bQuery none ⟨oracleDecode, []⟩).1 =
      .ok ⟨false, .vstr ("JSON Decoder Error Expecting value"),
        .vdict [("msg", .vstr ("Expecting value"))]⟩ ∧
    (execute cFix bQuery none ⟨oracleConnErr, []⟩).1 =
      .ok ⟨false, .vstr ("HTTPX error: ConnectError"), .vdict []⟩ ∧
    (get_gas_from_faucet cFix ("0xabc") ⟨oracleDecode, []⟩).1 =
      .ok ⟨false, .vstr ("JSON Decoder Error Expecting value"),
        .vdict [("msg", .vstr ("Expecting value"))]⟩ ∧
    (get_gas_from_faucet cFix ("0xabc") ⟨oracleTimeout, []⟩).1 =
      .ok ⟨false, .vstr ("HTTP read timeout error"), .vdict [("request", .vnull)]⟩ :=
  ⟨transport_decode_envelopes_amended.1 bQuery oracleDecode ("Expecting value")
     (.vdict [("msg", .vstr ("Expecting value"))]) rfl,
   transport_decode_envelopes_amended.2.1 bQuery oracleConnErr .ConnectError
     (.vdict []) rfl,
   transport_decode_envelopes_amended.2.2.1 cFix bQuery none oracleDecode
     ("Expecting value") (.vdict [("msg", .vstr ("Expecting value"))]) rfl rfl,
   transport_decode_envelopes_amended.2.2.2.1 cFix bQuery none oracleConnErr
     .ConnectError (.vdict []) rfl rfl,
   transport_decode_envelopes_amended.2.2.2.2.1 cFix ("0xabc") oracleDecode
     ("Expecting value") (.vdict [("msg", .vstr ("Expecting value"))]) rfl,
   transport_decode_envelopes_amended.2.2.2.2.2 cFix ("0xabc") oracleTimeout
     (.vdict [("request", .vnull)]) rfl⟩

/-- The chunks produced by `partition` concatenate back to the original
list (auxiliary form with an explicit length bound for the induction). -/
theorem partition_flatten_aux (m : Nat) :
    ∀ (n : Nat) (xs : List α), xs.length ≤ n → (partition m xs).flatten = xs := by
  intro n
  induction n with
  | zero =>
    intro xs h
    have hx : xs = [] := List.length_eq_zero.mp (Nat.le_zero.mp h)
    subst hx
    simp [partition]
  | succ n ih =>
    intro xs h
    match xs with
    | [] => simp [partition]
    | x :: l =>
      have hd : (l.drop (m - 1)).length ≤ n := by
        simp only [List.length_drop]
        simp only [List.length_cons] at h
        omega
      simp only [partition, List.flatten_cons, List.cons_append]
      rw [ih (l.drop (m - 1)) hd, List.take_append_drop]

/-- The chunks produced by `partition` concatenate back to the original
list, in order. -/
theorem partition_flatten (m : Nat) (xs : List α) :
    (partition m xs).flatten = xs :=
  partition_flatten_aux m xs.length xs le_rfl

/-- Every chunk produced by `partition` has at most `m` elements (auxiliary
form with an explicit length bound for the induction). -/
theorem partition_chunk_le_aux (m : Nat) (hm : 0 < m) :
    ∀ (n : Nat) (xs : List α), xs.length ≤ n →
      ∀ ch ∈ partition m xs, ch.length ≤ m := by
  intro n
  induction n with
  | zero =>
    intro xs h ch hch
    have hx : xs = [] := List.length_eq_zero.mp (Nat.le_zero.mp h)
    subst hx
    simp [partition] at hch
  | succ n ih =>
    intro xs h ch hch
    match xs with
    | [] => simp [partition] at hch
    | x :: l =>
      simp only [partition, List.mem_cons] at hch
      rcases hch with rfl | hch
      · simp only [List.length_cons, List.length_take]
        omega
      · refine ih (l.drop (m - 1)) ?_ ch hch
        simp only [List.length_drop]
        simp only [List.length_cons] at h
        omega

/-- Every chunk produced by `partition` has at most `m` elements. -/
theorem partition_chunk_le (m : Nat) (hm : 0 < m) (xs : List α) :
    ∀ ch ∈ partition m xs, ch.length ≤ m :=
  partition_chunk_le_aux m hm xs.length xs le_rfl

/-- C10: when the identifier list is longer than `max_gets`, `get_objects_for`
issues one `GetMultipleObjects` request per chunk of the `partition` of the
identifiers — consecutive chunks of at most `max_gets` ids whose
concatenation is the original list in order — and returns a success
envelope whose data is the concatenation of the per-chunk results; with an
order-preserving fetcher this equals the per-identifier results in the
original input order.  A list of length at most `max_gets` is issued as a
single request whose envelope is returned directly. -/
theorem get_objects_for_chunking (m : Nat) (fetch : List String → List Value)
    (f : String → Value) (ids : List String) (hm : 0 < m) :
    (ids.length > m →
      (get_objects_for m fetch ids).1 = partition m ids ∧
      (∀ ch ∈ partition m ids, ch.length ≤ m) ∧
      (partition m ids).flatten = ids ∧
      (get_objects_for m fetch ids).2 =
        ⟨true, .vnull, .vlist ((partition m ids).map fetch).flatten⟩ ∧
      (get_objects_for m (fun chunk => chunk.map f) ids).2 =
        ⟨true, .vnull, .vlist (ids.map f)⟩) ∧
    (ids.length ≤ m →
      get_objects_for m fetch ids = ([ids], ⟨true, .vnull, .vlist (fetch ids)⟩)) := by
  constructor
  · intro hlen
    refine ⟨?_, partition_chunk_le m hm ids, partition_flatten m ids, ?_, ?_⟩
    · simp [get_objects_for, hlen]
    · simp [get_objects_for, hlen]
    · have hmap : ((partition m ids).map (fun chunk => chunk.map f)).flatten =
          ids.map f := by
        rw [← List.map_flatten, partition_flatten]
      simp [get_objects_for, hlen, hmap]
  · intro hlen
    have hgt : ¬ ids.length > m := by omega
    simp [get_objects_for, hgt]

/-- Witness for C10 at `max_gets = 2` and five identifiers: three requests
of sizes 2, 2, 1 in order, whose results concatenate to the five objects in
input order; and the short-list branch at two identifiers. -/
theorem get_objects_for_chunking_witness :
    ((get_objects_for 2 wFetch wIds).1 = partition 2 wIds ∧
     (∀ ch ∈ partition 2 wIds, ch.length ≤ 2) ∧
     (partition 2 wIds).flatten = wIds ∧
     (get_objects_for 2 wFetch wIds).2 =
       ⟨true, .vnull, .vlist ((partition 2 wIds).map wFetch).flatten⟩ ∧
     (get_objects_for 2 (fun chunk => chunk.map wF) wIds).2 =
       ⟨true, .vnull, .vlist (wIds.map wF)⟩) ∧
    get_objects_for 2 wFetch ["a", "b"] =
      ([["a", "b"]], ⟨true, .vnull, .vlist (wFetch ["a", "b"])⟩) :=
  ⟨(get_objects_for_chunking 2 wFetch wF wIds (by decide)).1 (by decide),
   (get_objects_for_chunking 2 wFetch wF ["a", "b"] (by decide)).2 (by decide)⟩

end SuiClient
